import Mathlib

/-!
Shallow embedding of the multivector ingestion and dual-vector query
pipeline of the liquid-memory repository (src/vectorstore/qdrant_client.rs,
src/vectorstore/ingestion.rs, src/llm/openai.rs), together with theorems
settling the specification claims about it.

Modelling conventions:
* `f32` scalar components of embedding vectors are opaque data in this code
  (never computed with), modelled as `Int`.
* The remote qdrant engine is an external collaborator, modelled as an
  oracle (`Engine`) answering each request with a response or an error.
* `Uuid::new_v4()` is modelled as a supply of fresh identifiers (`IdGen`):
  each draw yields an identifier never yielded before and independent of any
  record content.
* Rust functions that can `panic` (via `.unwrap()` or out-of-bounds
  indexing) return an `Outcome`, which distinguishes a returned `Ok`, a
  returned `Err`, and a panic.
-/

set_option maxRecDepth 4096

namespace LiquidMemory

/-- `f32` vector components, opaque to this code; modelled as integers. -/
abbrev Scalar := Int

/-- The JSON payloads this repository builds bind string keys to string
values (`image_path`, `text`, `timestamp`); modelled as an association
list. -/
abbrev Payload := List (String × String)

/-- Lookup of a payload key (first binding wins, as in a JSON object). -/
def payloadLookup (p : Payload) (k : String) : Option String :=
  (p.find? (fun kv => kv.1 == k)).map (fun kv => kv.2)

/-- Distance metrics of qdrant's `Distance` enum used by this code. -/
inductive Distance
  | cosine
  | euclid
  deriving DecidableEq

/-- Parameters of one vector space: dimensionality and distance
(`VectorParamsBuilder::new(size, distance)`). -/
structure VectorParams where
  size : Nat
  distance : Distance
  deriving DecidableEq

/-- Vector data of a point: a single unnamed vector, or named vectors
(`HashMap<String, Vec<f32>>` in the source, modelled as an association
list). -/
inductive VectorData
  | single (v : List Scalar)
  | named (m : List (String × List Scalar))
  deriving DecidableEq

/-- Lookup of a named vector. -/
def VectorData.namedLookup : VectorData → String → Option (List Scalar)
  | .single _, _ => none
  | .named m, k => (m.find? (fun kv => kv.1 == k)).map (fun kv => kv.2)

/-- The vector-space names a point's vector data supplies. -/
def VectorData.names : VectorData → List String
  | .single _ => []
  | .named m => m.map (fun kv => kv.1)

/-- Record identifiers (`Uuid::new_v4().to_string()` in the source:
distinct fresh identifiers, modelled as naturals). -/
abbrev PointId := Nat

/-- `PointStruct`: identifier, vector data and payload. -/
structure PointStruct where
  id : PointId
  vectors : VectorData
  payload : Payload
  deriving DecidableEq

/-- `Uuid::new_v4()` modelled as a supply of fresh identifiers: each draw
returns the next unused identifier; the draw never inspects any record
content. -/
structure IdGen where
  nextId : Nat
  deriving DecidableEq

/-- Draw a fresh identifier. -/
def IdGen.fresh (g : IdGen) : PointId × IdGen := (g.nextId, ⟨g.nextId + 1⟩)

/-- Abstract model of `QdrantError` (the error cases the spec names). -/
inductive QdrantError
  | connectionError
  | notFound
  | schemaMismatch
  | other (msg : String)
  deriving DecidableEq

/-- One scored point of a query response. -/
structure ScoredPoint where
  id : PointId
  payload : Payload
  deriving DecidableEq

/-- `QueryResponse`: the ordered result list of one similarity query. -/
structure QueryResponse where
  result : List ScoredPoint
  deriving DecidableEq

/-- `PointsOperationResponse` returned by an acknowledged upsert. -/
structure PointsOperationResponse where
  opStatus : Nat
  deriving DecidableEq

/-- A similarity query request as assembled by `QueryPointsBuilder`:
collection, query vector, limit, the `with_payload` / `with_vectors` flags
(builder default: false) and the optional `using` vector-space name
(builder default: none). -/
structure QueryRequest where
  collection : String
  queryVector : List Scalar
  limit : Nat
  withPayload : Bool
  withVectors : Bool
  usingName : Option String
  deriving DecidableEq

/-- An upsert request as assembled by `UpsertPointsBuilder`: collection,
points, and the `wait` flag (builder default: false). -/
structure UpsertRequest where
  collection : String
  points : List PointStruct
  wait : Bool
  deriving DecidableEq

/-- A create-collection request: name and the named vector spaces declared
through `VectorsConfigBuilder::add_named_vector_params`, in declaration
order. -/
structure CreateCollectionRequest where
  name : String
  namedVectors : List (String × VectorParams)
  deriving DecidableEq

/-- The remote qdrant engine: an oracle answering each request the client
issues with a response or an error. -/
structure Engine where
  query : QueryRequest → Except QdrantError QueryResponse
  upsert : UpsertRequest → Except QdrantError PointsOperationResponse
  listCollections : Except QdrantError (List String)
  deleteCollection : String → Except QdrantError Unit
  createCollection : CreateCollectionRequest → Except QdrantError Unit

/-- Result of running a Rust function that may panic: a returned `Ok`
value, a returned `Err` value, or a panic (`.unwrap()` on `Err`,
out-of-bounds indexing). -/
inductive Outcome (ε α : Type)
  | ok (a : α)
  | err (e : ε)
  | panic
  deriving DecidableEq

/-- `?`-propagation: an engine `Result` returned as-is to the caller. -/
def ofExcept {ε α : Type} : Except ε α → Outcome ε α
  | .ok a => .ok a
  | .error e => .err e

/-! ## The qdrant client operations (src/vectorstore/qdrant_client.rs) -/

/-- `to_point_struct` (qdrant_client.rs lines 18-20): a point with a fresh
Uuid-v4 identifier and a single unnamed vector. -/
def to_point_struct (gen : IdGen) (point : List Scalar) (payload : Payload) :
    PointStruct × IdGen :=
  let (id, gen) := gen.fresh
  ({ id := id, vectors := .single point, payload := payload }, gen)

/-- The request issued by `create_multivector_collection` (lines 58-71):
exactly two named vector spaces, `image` with `vector_size_img` and `text`
with `vector_size_txt`, both cosine distance. -/
def create_multivector_collection_request (collection_name : String)
    (vector_size_img vector_size_txt : Nat) : CreateCollectionRequest :=
  { name := collection_name,
    namedVectors := [("image", ⟨vector_size_img, .cosine⟩),
                     ("text", ⟨vector_size_txt, .cosine⟩)] }

/-- `create_multivector_collection` (lines 52-74); the engine error is
propagated with `?`. -/
def create_multivector_collection (engine : Engine) (collection_name : String)
    (vector_size_img vector_size_txt : Nat) : Outcome QdrantError Unit :=
  ofExcept (engine.createCollection
    (create_multivector_collection_request collection_name vector_size_img
      vector_size_txt))

/-- The per-collection body of `delete_all_collections` (lines 86-90): each
`delete_collection` result is `.unwrap()`ed, so a failing delete terminates
the call by panic. -/
def delete_all_collections_loop (engine : Engine) :
    List String → Outcome QdrantError Unit
  | [] => .ok ()
  | c :: rest =>
    match engine.deleteCollection c with
    | .error _ => .panic
    | .ok _ => delete_all_collections_loop engine rest

/-- `delete_all_collections` (lines 84-92): `get_collections` is
`.unwrap()`ed (line 85) and each delete is `.unwrap()`ed (line 89), so any
underlying failure terminates the call by panic, never by returning the
error. -/
def delete_all_collections (engine : Engine) : Outcome QdrantError Unit :=
  match engine.listCollections with
  | .error _ => .panic
  | .ok cols => delete_all_collections_loop engine cols

/-- The single request issued by `upsert_points_multivector`
(lines 125-140): one point whose named-vector map binds `image` to
`vec_img` and `text` to `vec_txt`, carrying `payload`, with
`wait(true)`. -/
def upsert_points_multivector_request (id : PointId) (collection_name : String)
    (vec_img vec_txt : List Scalar) (payload : Payload) : UpsertRequest :=
  { collection := collection_name,
    points := [{ id := id,
                 vectors := .named [("image", vec_img), ("text", vec_txt)],
                 payload := payload }],
    wait := true }

/-- `upsert_points_multivector` (lines 118-144): draws one fresh identifier,
issues the single acknowledged write, and propagates the engine error with
`?`. -/
def upsert_points_multivector (engine : Engine) (gen : IdGen)
    (collection_name : String) (vec_img vec_txt : List Scalar)
    (payload : Payload) :
    Outcome QdrantError PointsOperationResponse × IdGen :=
  let (id, gen) := gen.fresh
  (ofExcept (engine.upsert
    (upsert_points_multivector_request id collection_name vec_img vec_txt
      payload)), gen)

/-- The request issued by `query_points` (lines 152-160). -/
def query_points_request (collection_name : String) (vector : List Scalar)
    (limit : Nat) : QueryRequest :=
  { collection := collection_name, queryVector := vector, limit := limit,
    withPayload := true, withVectors := true, usingName := none }

/-- `query_points` (lines 146-164); the engine error is propagated with
`?`. -/
def query_points (engine : Engine) (collection_name : String)
    (vector : List Scalar) (limit : Nat) : Outcome QdrantError QueryResponse :=
  ofExcept (engine.query (query_points_request collection_name vector limit))

/-- The image-space sub-query spawned by `query_points_multivector`
(lines 204-214): the image query vector, the given limit, payload and
vectors included, scoped with `using("image")`. -/
def image_subquery (collection_name : String) (image_vector : List Scalar)
    (limit : Nat) : QueryRequest :=
  { collection := collection_name, queryVector := image_vector,
    limit := limit, withPayload := true, withVectors := true,
    usingName := some "image" }

/-- The text-space sub-query spawned by `query_points_multivector`
(lines 217-228): the text query vector, the given limit, payload and
vectors included, scoped with `using("text")`. -/
def text_subquery (collection_name : String) (text_vector : List Scalar)
    (limit : Nat) : QueryRequest :=
  { collection := collection_name, queryVector := text_vector,
    limit := limit, withPayload := true, withVectors := true,
    usingName := some "text" }

/-- The requests issued by one call to `query_points_multivector`: both
tasks are spawned unconditionally (lines 203 and 217, with no validation
before them), so both sub-queries are issued on every call. -/
def query_points_multivector_requests (collection_name : String)
    (image_vector text_vector : List Scalar) (limit : Nat) :
    List QueryRequest :=
  [image_subquery collection_name image_vector limit,
   text_subquery collection_name text_vector limit]

/-- `query_points_multivector` (lines 185-235).  Each spawned task
`.unwrap()`s its own query result (lines 214 and 228); if a sub-query
fails, that task panics, its oneshot sender is dropped, the corresponding
`rx.await` yields an error, and the coordinator's `.unwrap()` (lines 232
and 233) panics: no value is returned.  On success the pair carries the
image response first, the text response second. -/
def query_points_multivector (engine : Engine) (collection_name : String)
    (image_vector text_vector : List Scalar) (limit : Nat) :
    Outcome QdrantError (QueryResponse × QueryResponse) :=
  match engine.query (image_subquery collection_name image_vector limit),
        engine.query (text_subquery collection_name text_vector limit) with
  | .ok img, .ok txt => .ok (img, txt)
  | _, _ => .panic

/-! ## The OpenAI chat adapter (src/llm/openai.rs) -/

/-- Abstract model of `OpenAIError` (openai.rs lines 73-88). -/
inductive OpenAIError
  | apiError (status : Nat) (message : String)
  | envError
  | ioError (msg : String)
  | requestError (msg : String)
  | imageError (msg : String)
  deriving DecidableEq

/-- A chat message (openai.rs lines 10-14). -/
structure Message where
  role : String
  content : String
  deriving DecidableEq

/-- One choice of a chat response (openai.rs lines 42-48). -/
structure Choice where
  message : Message
  deriving DecidableEq

/-- The vendor response envelope (openai.rs lines 50-58); only the fields
`send_message` reads are modelled. -/
structure OpenAIResponse where
  choices : List Choice
  deriving DecidableEq

/-- `OpenAIClient::send_message` (openai.rs lines 220-238), parametrised by
the outcome of the `create_chat_completion` HTTP exchange (an external
collaborator, passed as an oracle value).  The `.unwrap()` at line 235
turns a failed completion into a panic rather than a returned error, and
`choices[0]` at line 237 panics when `choices` is empty. -/
def send_message (completion : Except OpenAIError OpenAIResponse) :
    Outcome OpenAIError String :=
  match completion with
  | .error _ => .panic
  | .ok resp =>
    match resp.choices with
    | [] => .panic
    | c :: _ => .ok c.message.content

/-! ## The ingestion orchestrator (src/vectorstore/ingestion.rs) -/

/-- Abstract model of the `anyhow` error of `ingest_multivector`: an I/O
failure from `load_image_as_base64` or a write failure from the qdrant
client, both propagated with `?`. -/
inductive IngestError
  | ioError (msg : String)
  | qdrant (e : QdrantError)
  deriving DecidableEq

/-- External collaborators of the ingestion orchestrator: the filesystem
reached through `load_image_as_base64` (utils.rs lines 14-17, returning the
base64 encoding of the file bytes) and the two embedding endpoints, plus
the clock read once per loop iteration (`chrono::Utc::now().to_rfc3339()`,
indexed here by the iteration counter). -/
structure IngestEnv where
  loadImageAsBase64 : String → Except IngestError String
  textEmbed : List String → Except IngestError (List (List Scalar))
  imageEmbed : List String → Except IngestError (List (List Scalar))
  now : Nat → String

/-- The payload built for pair `idx` of `ingest_multivector`'s loop
(ingestion.rs lines 92-96).  The loop iterates
`images.iter().zip(texts.iter())` (line 91) where `images` holds the
base64-encoded images, so the binder named `image_path` holds the base64
string, and it is that string that is stored under the `image_path` key. -/
def ingest_payload (image_b64 text timestamp : String) : Payload :=
  [("image_path", image_b64), ("text", text), ("timestamp", timestamp)]

/-- The image-loading loop of `ingest_multivector` (lines 84-87):
base64-encodes each path's bytes in order, propagating the first I/O error
with `?`. -/
def load_images (env : IngestEnv) : List String → Except IngestError (List String)
  | [] => .ok []
  | p :: rest =>
    match env.loadImageAsBase64 p with
    | .error e => .error e
    | .ok b =>
      match load_images env rest with
      | .error e => .error e
      | .ok bs => .ok (b :: bs)

/-- The pairing loop of `ingest_multivector` (lines 91-106): iterates
positionally over `images.zip(texts)` with index `idx`, builds one payload
per pair, and issues one `upsert_points_multivector` call per pair with
`image_embedding[idx]` and `text_embeddings[idx]` (Rust indexing: a panic
when `idx` is out of range).  Returns the list of upsert requests actually
issued to the engine (in issue order; the loop makes no other engine call),
the outcome, and the identifier supply.  A failing write returns its error
immediately: no later pair is attempted and nothing already written is
touched again. -/
def ingest_loop (engine : Engine) (env : IngestEnv) (gen : IdGen)
    (collection_name : String)
    (image_embedding text_embeddings : List (List Scalar)) :
    List (String × String) → Nat →
    List UpsertRequest × Outcome IngestError Unit × IdGen
  | [], _ => ([], .ok (), gen)
  | (image_path, text) :: rest, idx =>
    match image_embedding[idx]?, text_embeddings[idx]? with
    | some vI, some vT =>
      let payload := ingest_payload image_path text (env.now idx)
      let (id, gen) := gen.fresh
      let req := upsert_points_multivector_request id collection_name vI vT
        payload
      (match engine.upsert req with
       | .error e => ([req], .err (.qdrant e), gen)
       | .ok _ =>
         let (reqs, out, gen) := ingest_loop engine env gen collection_name
           image_embedding text_embeddings rest (idx + 1)
         (req :: reqs, out, gen))
    | _, _ => ([], .panic, gen)

/-- The full sequence of write requests the pairing loop would issue if
every write succeeded: one request per pair, in positional order, with a
fresh identifier drawn per call (out-of-range embedding indices are given
the empty-vector default; the theorems only use this under the length
hypotheses that rule that case out). -/
def ingest_requests (env : IngestEnv) (gen : IdGen) (collection_name : String)
    (image_embedding text_embeddings : List (List Scalar)) :
    List (String × String) → Nat → List UpsertRequest
  | [], _ => []
  | (image_path, text) :: rest, idx =>
    upsert_points_multivector_request gen.nextId collection_name
      (image_embedding.getD idx []) (text_embeddings.getD idx [])
      (ingest_payload image_path text (env.now idx))
    :: ingest_requests env ⟨gen.nextId + 1⟩ collection_name image_embedding
         text_embeddings rest (idx + 1)

/-- `ingest_multivector` (ingestion.rs lines 69-109), returning also the
list of upsert requests it issued.  The batch text-embedding call (line 82)
and the batch image-embedding call (line 89) are `.unwrap()`ed — a failure
there panics — while an image-loading failure is propagated with `?`
(line 85). -/
def ingest_multivector (engine : Engine) (env : IngestEnv) (gen : IdGen)
    (collection_name : String) (image_paths texts : List String) :
    List UpsertRequest × Outcome IngestError Unit × IdGen :=
  match env.textEmbed texts with
  | .error _ => ([], .panic, gen)
  | .ok text_embeddings =>
    match load_images env image_paths with
    | .error e => ([], .err e, gen)
    | .ok images =>
      match env.imageEmbed images with
      | .error _ => ([], .panic, gen)
      | .ok image_embedding =>
        ingest_loop engine env gen collection_name image_embedding
          text_embeddings (images.zip texts) 0

/-! ## Engine-side write acceptance (external collaborator, from the spec) -/

/-- Modelled from the spec: the write-acceptance rule of the backing vector
engine (an external collaborator, not part of this repository) for a
collection with a named-vector schema.  Spec: "every record inserted into a
collection must supply exactly the vector name(s) declared by that
collection's schema, with vectors of the declared dimensionality; an insert
violating this is rejected by the underlying engine". -/
def engine_accepts_point (schema : List (String × VectorParams))
    (p : PointStruct) : Bool :=
  (schema.all fun sv =>
    match p.vectors.namedLookup sv.1 with
    | some v => v.length == sv.2.size
    | none => false)
  && (p.vectors.names.all fun nm => schema.any fun sv => sv.1 == nm)
  && (match p.vectors with | .single _ => false | .named _ => true)

/-- Modelled from the spec: the engine's answer to a write checked against
a named-vector schema — a violating write "fails with
SchemaMismatchError". -/
def engine_write_result (schema : List (String × VectorParams))
    (p : PointStruct) : Except QdrantError Unit :=
  if engine_accepts_point schema p then .ok () else .error .schemaMismatch

/-! ## Repeated writes (identifier freshness) -/

/-- The requests issued by `n` successive calls to
`upsert_points_multivector` with the same collection, vectors and payload,
threading the identifier supply from call to call. -/
def repeated_upsert_requests (gen : IdGen) (collection_name : String)
    (vec_img vec_txt : List Scalar) (payload : Payload) :
    Nat → List UpsertRequest
  | 0 => []
  | n + 1 =>
    upsert_points_multivector_request gen.nextId collection_name vec_img
      vec_txt payload
    :: repeated_upsert_requests ⟨gen.nextId + 1⟩ collection_name vec_img
         vec_txt payload n

/-- The record identifiers carried by a list of upsert requests, in issue
order. -/
def record_ids (reqs : List UpsertRequest) : List PointId :=
  (reqs.map (fun r => r.points.map (fun p => p.id))).flatten

/-! ## Small-step interleaving model of the dual-vector query coordinator

`query_points_multivector` (lines 192-234) spawns two tasks, each owning
its own freshly built client over the coordinator's uri (lines 199-200),
each running one sub-query and handing its single result to the coordinator
through a oneshot channel; the coordinator then awaits the image channel
and the text channel.  The model below is an interleaving semantics of that
fan-out/fan-in: either task may take its step at any time, independently of
the sibling and of the coordinator. -/

/-- Configuration of one coordinator invocation.  `clientImg` and
`clientTxt` model the two independent client instances built at
lines 199-200, one owned by each spawned task. -/
structure CoordCfg where
  engine : Engine
  collection : String
  imageVector : List Scalar
  textVector : List Scalar
  limit : Nat
  clientImg : Nat
  clientTxt : Nat

/-- The configuration `query_points_multivector` sets up: the two tasks
get two distinct client instances over the same engine. -/
def mkCoordCfg (engine : Engine) (collection_name : String)
    (image_vector text_vector : List Scalar) (limit : Nat) : CoordCfg :=
  { engine := engine, collection := collection_name,
    imageVector := image_vector, textVector := text_vector, limit := limit,
    clientImg := 0, clientTxt := 1 }

/-- What the image task's single query returns. -/
def CoordCfg.imgResult (cfg : CoordCfg) : Except QdrantError QueryResponse :=
  cfg.engine.query (image_subquery cfg.collection cfg.imageVector cfg.limit)

/-- What the text task's single query returns. -/
def CoordCfg.txtResult (cfg : CoordCfg) : Except QdrantError QueryResponse :=
  cfg.engine.query (text_subquery cfg.collection cfg.textVector cfg.limit)

/-- State of one spawned task: still to run, finished and its result sent
on its oneshot channel, or panicked on `.unwrap()` (sender dropped). -/
inductive TaskState
  | pending
  | sent (r : QueryResponse)
  | panicked
  deriving DecidableEq

/-- A task state is terminal when the task has finished (success or
failure). -/
def TaskState.isTerminal : TaskState → Bool
  | .pending => false
  | .sent _ => true
  | .panicked => true

/-- The coordinator's control point: awaiting the image channel (line 232),
awaiting the text channel with the image result in hand (line 233),
returned with the ordered pair (line 234), or panicked because an awaited
channel reported its sender dropped. -/
inductive CoordPhase
  | awaitingImg
  | awaitingTxt (img : QueryResponse)
  | returned (p : QueryResponse × QueryResponse)
  | coordPanicked
  deriving DecidableEq

/-- How many oneshot receives the coordinator has consumed so far (each
phase change consumes one channel, and a consumed channel is never read
again). -/
def CoordPhase.consumedCount : CoordPhase → Nat
  | .awaitingImg => 0
  | .awaitingTxt _ => 1
  | .returned _ => 2
  | .coordPanicked => 2

/-- Global state: the two task states and the coordinator phase. -/
structure CState where
  img : TaskState
  txt : TaskState
  phase : CoordPhase
  deriving DecidableEq

/-- Initial state: both tasks spawned and pending, coordinator at
line 232. -/
def initState : CState := ⟨.pending, .pending, .awaitingImg⟩

/-- Interleaving step relation.  The two task steps fire whatever the
sibling task's state and the coordinator's phase are (no data dependency);
the coordinator's receive steps consume each oneshot channel exactly once,
in the order of lines 232-233, and panic when the awaited sender was
dropped. -/
inductive CoordStep (cfg : CoordCfg) : CState → CState → Prop
  | imgOk (t : TaskState) (ph : CoordPhase) (r : QueryResponse) :
      cfg.imgResult = .ok r →
      CoordStep cfg ⟨.pending, t, ph⟩ ⟨.sent r, t, ph⟩
  | imgFail (t : TaskState) (ph : CoordPhase) (e : QdrantError) :
      cfg.imgResult = .error e →
      CoordStep cfg ⟨.pending, t, ph⟩ ⟨.panicked, t, ph⟩
  | txtOk (s : TaskState) (ph : CoordPhase) (r : QueryResponse) :
      cfg.txtResult = .ok r →
      CoordStep cfg ⟨s, .pending, ph⟩ ⟨s, .sent r, ph⟩
  | txtFail (s : TaskState) (ph : CoordPhase) (e : QdrantError) :
      cfg.txtResult = .error e →
      CoordStep cfg ⟨s, .pending, ph⟩ ⟨s, .panicked, ph⟩
  | recvImg (t : TaskState) (r : QueryResponse) :
      CoordStep cfg ⟨.sent r, t, .awaitingImg⟩ ⟨.sent r, t, .awaitingTxt r⟩
  | recvImgDropped (t : TaskState) :
      CoordStep cfg ⟨.panicked, t, .awaitingImg⟩ ⟨.panicked, t, .coordPanicked⟩
  | recvTxt (s : TaskState) (ri rt : QueryResponse) :
      CoordStep cfg ⟨s, .sent rt, .awaitingTxt ri⟩
        ⟨s, .sent rt, .returned (ri, rt)⟩
  | recvTxtDropped (s : TaskState) (ri : QueryResponse) :
      CoordStep cfg ⟨s, .panicked, .awaitingTxt ri⟩
        ⟨s, .panicked, .coordPanicked⟩

/-- Reachability in the interleaving semantics. -/
def CoordReach (cfg : CoordCfg) : CState → CState → Prop :=
  Relation.ReflTransGen (CoordStep cfg)

/-! ## Concrete engines and environments used by the witnesses -/

/-- Placeholder request used as a `getD` default in statements. -/
def defaultReq : UpsertRequest := ⟨"", [], false⟩

/-- Placeholder point used as a `getD` default in statements. -/
def defaultPoint : PointStruct := ⟨0, .single [], []⟩

/-- A sample populated image-space response. -/
def sampleImgResponse : QueryResponse := ⟨[⟨1, [("text", "a")]⟩]⟩

/-- A sample populated text-space response. -/
def sampleTxtResponse : QueryResponse := ⟨[⟨2, [("text", "b")]⟩]⟩

/-- An engine that answers every request successfully; queries scoped to
the image space get `sampleImgResponse`, all other queries
`sampleTxtResponse`. -/
def okEngine : Engine :=
  { query := fun req =>
      if req.usingName == some "image" then .ok sampleImgResponse
      else .ok sampleTxtResponse,
    upsert := fun _ => .ok ⟨0⟩,
    listCollections := .ok ["a", "b"],
    deleteCollection := fun _ => .ok (),
    createCollection := fun _ => .ok () }

/-- An engine whose every operation fails with a connection error. -/
def failEngine : Engine :=
  { query := fun _ => .error .connectionError,
    upsert := fun _ => .error .connectionError,
    listCollections := .error .connectionError,
    deleteCollection := fun _ => .error .connectionError,
    createCollection := fun _ => .error .connectionError }

/-- An engine that fails exactly the image-scoped queries. -/
def imgFailEngine : Engine :=
  { query := fun req =>
      if req.usingName == some "image" then .error .connectionError
      else .ok sampleTxtResponse,
    upsert := fun _ => .ok ⟨0⟩,
    listCollections := .ok [],
    deleteCollection := fun _ => .ok (),
    createCollection := fun _ => .ok () }

/-- An engine that accepts only writes whose every point has identifier 0,
so with a fresh supply starting at 0 the second write of a batch fails. -/
def secondWriteFailEngine : Engine :=
  { query := fun _ => .ok ⟨[]⟩,
    upsert := fun req =>
      if req.points.all (fun p => p.id == 0) then .ok ⟨0⟩
      else .error .connectionError,
    listCollections := .ok [],
    deleteCollection := fun _ => .ok (),
    createCollection := fun _ => .ok () }

/-- A sample ingestion environment: loading a path yields the path tagged
as base64, and the embedding endpoints return fixed-dimension stubs. -/
def sampleEnv : IngestEnv :=
  { loadImageAsBase64 := fun p => .ok ("b64:" ++ p),
    textEmbed := fun ts => .ok (ts.map (fun _ => [1, 2])),
    imageEmbed := fun bs => .ok (bs.map (fun _ => [3, 4])),
    now := fun k => "t" ++ toString k }

/-! ## Claims about the dual-vector query coordinator -/

/-- C1: if either sub-query of `query_points_multivector` fails, the
operation fails as a whole — the coordinator panics (its `.unwrap()` on the
dropped oneshot) and returns no value at all, so in particular it never
returns a pair in which one half is populated and the other is missing
because its sibling failed. -/
theorem C1_whole_failure_on_subquery_failure (engine : Engine) (c : String)
    (iv tv : List Scalar) (limit : Nat)
    (h : (∃ e, engine.query (image_subquery c iv limit) = .error e) ∨
         (∃ e, engine.query (text_subquery c tv limit) = .error e)) :
    query_points_multivector engine c iv tv limit = .panic := by
  cases h1 : engine.query (image_subquery c iv limit) with
  | error e =>
    unfold query_points_multivector
    rw [h1]
  | ok a =>
    cases h2 : engine.query (text_subquery c tv limit) with
    | error e =>
      unfold query_points_multivector
      rw [h1, h2]
    | ok b =>
      exfalso
      rcases h with ⟨e, he⟩ | ⟨e, he⟩
      · rw [h1] at he
        exact Except.noConfusion he
      · rw [h2] at he
        exact Except.noConfusion he

/-- Witness for C1: a concrete engine whose image-scoped queries fail. -/
theorem C1_whole_failure_witness :
    ((∃ e, imgFailEngine.query (image_subquery "c" [1] 5) = .error e) ∨
     (∃ e, imgFailEngine.query (text_subquery "c" [2] 5) = .error e)) ∧
    query_points_multivector imgFailEngine "c" [1] [2] 5 = .panic := by
  refine ⟨.inl ⟨.connectionError, rfl⟩, ?_⟩
  exact C1_whole_failure_on_subquery_failure imgFailEngine "c" [1] [2] 5
    (.inl ⟨.connectionError, rfl⟩)

/-- C2: `query_points_multivector` issues exactly two similarity queries
against the same collection — one scoped to the named vector space `image`
with the image query vector, one scoped to `text` with the text query
vector, each requesting `limit` results with payload and vector data
included — and on success returns the two result sets as a pair, the
image-space results first and the text-space results second. -/
theorem C2_two_scoped_subqueries (engine : Engine) (c : String)
    (iv tv : List Scalar) (limit : Nat) :
    (query_points_multivector_requests c iv tv limit).length = 2 ∧
    query_points_multivector_requests c iv tv limit =
      [{ collection := c, queryVector := iv, limit := limit,
         withPayload := true, withVectors := true,
         usingName := some "image" },
       { collection := c, queryVector := tv, limit := limit,
         withPayload := true, withVectors := true,
         usingName := some "text" }] ∧
    (∀ a b : QueryResponse,
      query_points_multivector engine c iv tv limit = .ok (a, b) ↔
        engine.query (image_subquery c iv limit) = .ok a ∧
        engine.query (text_subquery c tv limit) = .ok b) := by
  refine ⟨rfl, rfl, fun a b => ?_⟩
  unfold query_points_multivector
  cases h1 : engine.query (image_subquery c iv limit) <;>
    cases h2 : engine.query (text_subquery c tv limit) <;>
    simp

/-- C3: `upsert_points_multivector` issues a single write request holding
exactly one record whose named-vector map binds the image vector under
`image` and the text vector under `text`, carrying the supplied payload,
with `wait(true)` so the call returns only with the engine's
acknowledgement of that write. -/
theorem C3_single_acknowledged_multivector_write (engine : Engine)
    (gen : IdGen) (c : String) (vI vT : List Scalar) (p : Payload) :
    upsert_points_multivector engine gen c vI vT p =
      (ofExcept (engine.upsert
        (upsert_points_multivector_request gen.nextId c vI vT p)),
       ⟨gen.nextId + 1⟩) ∧
    (upsert_points_multivector_request gen.nextId c vI vT p).points.length
      = 1 ∧
    (upsert_points_multivector_request gen.nextId c vI vT p).collection
      = c ∧
    (upsert_points_multivector_request gen.nextId c vI vT p).wait = true ∧
    ∀ pt ∈ (upsert_points_multivector_request gen.nextId c vI vT p).points,
      pt.vectors.namedLookup "image" = some vI ∧
      pt.vectors.namedLookup "text" = some vT ∧
      pt.vectors.names = ["image", "text"] ∧
      pt.payload = p := by
  refine ⟨rfl, rfl, rfl, rfl, ?_⟩
  intro pt hpt
  simp only [upsert_points_multivector_request, List.mem_singleton] at hpt
  subst hpt
  refine ⟨?_, ?_, rfl, rfl⟩
  · rfl
  · simp [VectorData.namedLookup, List.find?]

/-- Witness for C2 at a concrete engine and call. -/
theorem C2_two_scoped_subqueries_witness :
    (query_points_multivector_requests "c" [1] [2] 5).length = 2 ∧
    query_points_multivector okEngine "c" [1] [2] 5 =
      .ok (sampleImgResponse, sampleTxtResponse) := by
  have h := C2_two_scoped_subqueries okEngine "c" [1] [2] 5
  exact ⟨h.1, (h.2.2 sampleImgResponse sampleTxtResponse).mpr ⟨rfl, rfl⟩⟩

/-- Witness for C3 at a concrete engine and call. -/
theorem C3_single_write_witness :
    (upsert_points_multivector okEngine ⟨0⟩ "c" [1] [2]
        [("k", "v")]).1 = .ok ⟨0⟩ ∧
    (upsert_points_multivector_request 0 "c" [1] [2] [("k", "v")]).wait
      = true ∧
    (upsert_points_multivector_request 0 "c" [1] [2]
      [("k", "v")]).points.length = 1 := by
  have h := C3_single_acknowledged_multivector_write okEngine ⟨0⟩ "c" [1]
    [2] [("k", "v")]
  refine ⟨?_, h.2.2.2.1, h.2.1⟩
  rw [h.1]
  rfl

/-- C4 counterexample: at `limit = 0` the coordinator performs no
validation — both sub-queries are still launched, each carrying limit 0,
and with an engine that accepts them the call returns a successful pair
rather than a validation error. -/
theorem C4_counterexample_no_validation_at_zero :
    query_points_multivector_requests "c" [1] [2] 0 =
      [image_subquery "c" [1] 0, text_subquery "c" [2] 0] ∧
    (image_subquery "c" [1] 0).limit = 0 ∧
    (text_subquery "c" [2] 0).limit = 0 ∧
    query_points_multivector okEngine "c" [1] [2] 0 =
      .ok (sampleImgResponse, sampleTxtResponse) := by
  refine ⟨rfl, rfl, rfl, ?_⟩
  decide

/-- C4 amended: `query_points_multivector` performs no validation of
`limit` at all — every call, for every limit value including 0, launches
both sub-queries with the given limit passed through unchanged, and a zero
limit accepted by the engine yields a successful pair, not an error. -/
theorem C4_amended_no_limit_validation (engine : Engine) (c : String)
    (iv tv : List Scalar) (limit : Nat) (a b : QueryResponse)
    (himg : engine.query (image_subquery c iv 0) = .ok a)
    (htxt : engine.query (text_subquery c tv 0) = .ok b) :
    ((query_points_multivector_requests c iv tv limit).map
      (fun r => r.limit) = [limit, limit]) ∧
    query_points_multivector engine c iv tv 0 = .ok (a, b) := by
  refine ⟨rfl, ?_⟩
  unfold query_points_multivector
  rw [himg, htxt]

/-- Witness for the amended C4 at a concrete accepting engine. -/
theorem C4_amended_witness :
    okEngine.query (image_subquery "c" [1] 0) = .ok sampleImgResponse ∧
    okEngine.query (text_subquery "c" [2] 0) = .ok sampleTxtResponse ∧
    ((query_points_multivector_requests "c" [1] [2] 0).map
      (fun r => r.limit) = [0, 0]) ∧
    query_points_multivector okEngine "c" [1] [2] 0 =
      .ok (sampleImgResponse, sampleTxtResponse) := by
  have h := C4_amended_no_limit_validation okEngine "c" [1] [2] 0
    sampleImgResponse sampleTxtResponse rfl rfl
  exact ⟨rfl, rfl, h.1, h.2⟩

/-! ## Claims about error propagation -/

/-- C8 counterexample: three concrete underlying failures that are not
surfaced as returned error values — `delete_all_collections`, the
coordinator (through its sub-query tasks), and `send_message` terminate by
panic instead of returning the error. -/
theorem C8_counterexample_panics :
    delete_all_collections failEngine = .panic ∧
    query_points_multivector failEngine "c" [1] [2] 5 = .panic ∧
    send_message (.error (.requestError "boom")) = .panic :=
  ⟨rfl, rfl, rfl⟩

/-- C8 amended: no method retries internally, and the `?`-propagating
methods (`query_points`, `upsert_points_multivector`,
`create_multivector_collection`) surface the underlying failure as a
returned error value; but `delete_all_collections`, the coordinator's
sub-query tasks (and with them `query_points_multivector`), and
`OpenAIClient::send_message` terminate by panic on underlying failure
rather than returning the error. -/
theorem C8_amended_propagation_policy (engine : Engine) (e : QdrantError)
    (oe : OpenAIError) (c : String) (v vI vT : List Scalar) (limit : Nat)
    (gen : IdGen) (p : Payload) (d1 d2 : Nat)
    (hq : ∀ r, engine.query r = .error e)
    (hu : ∀ r, engine.upsert r = .error e)
    (hc : ∀ r, engine.createCollection r = .error e)
    (hl : engine.listCollections = .error e) :
    query_points engine c v limit = .err e ∧
    (upsert_points_multivector engine gen c vI vT p).1 = .err e ∧
    create_multivector_collection engine c d1 d2 = .err e ∧
    delete_all_collections engine = .panic ∧
    query_points_multivector engine c vI vT limit = .panic ∧
    send_message (.error oe) = .panic := by
  refine ⟨?_, ?_, ?_, ?_, ?_, rfl⟩
  · simp [query_points, hq, ofExcept]
  · simp [upsert_points_multivector, hu, ofExcept, IdGen.fresh]
  · simp [create_multivector_collection, hc, ofExcept]
  · simp [delete_all_collections, hl]
  · simp [query_points_multivector, hq]

/-- Witness for the amended C8 at the all-failing engine. -/
theorem C8_amended_witness :
    query_points failEngine "c" [1] 5 = .err .connectionError ∧
    (upsert_points_multivector failEngine ⟨0⟩ "c" [1] [2] [("k", "v")]).1
      = .err .connectionError ∧
    create_multivector_collection failEngine "c" 3 4
      = .err .connectionError ∧
    delete_all_collections failEngine = .panic ∧
    query_points_multivector failEngine "c" [1] [2] 5 = .panic ∧
    send_message (.error (.requestError "boom")) = .panic :=
  C8_amended_propagation_policy failEngine .connectionError
    (.requestError "boom") "c" [1] [1] [2] 5 ⟨0⟩ [("k", "v")] 3 4
    (fun _ => rfl) (fun _ => rfl) (fun _ => rfl) rfl

/-! ## Claims about identifiers and the collection schema -/

/-- The identifiers drawn by `n` repeated writer calls are the `n`
consecutive fresh identifiers starting at the supply's next one. -/
theorem record_ids_repeated (gen : IdGen) (c : String) (vI vT : List Scalar)
    (p : Payload) (n : Nat) :
    record_ids (repeated_upsert_requests gen c vI vT p n) =
      List.range' gen.nextId n := by
  induction n generalizing gen with
  | zero => rfl
  | succ n ih =>
    rw [List.range'_succ]
    show gen.nextId ::
      record_ids (repeated_upsert_requests ⟨gen.nextId + 1⟩ c vI vT p n) = _
    rw [ih]

/-- C7: N ≥ 1 calls to the writer with identical vectors and identical
payload issue N single-record write requests whose freshly drawn
identifiers are pairwise distinct — so N distinct records are created — and
the identifier sequence is never derived from the written content. -/
theorem C7_fresh_distinct_identifiers (gen : IdGen) (c : String)
    (vI vT : List Scalar) (p : Payload) (n : Nat) (hn : 1 ≤ n) :
    (record_ids (repeated_upsert_requests gen c vI vT p n)).length = n ∧
    (record_ids (repeated_upsert_requests gen c vI vT p n)).Pairwise
      (· ≠ ·) ∧
    ∀ (c' : String) (vI' vT' : List Scalar) (p' : Payload),
      record_ids (repeated_upsert_requests gen c' vI' vT' p' n) =
        record_ids (repeated_upsert_requests gen c vI vT p n) := by
  refine ⟨?_, ?_, ?_⟩
  · rw [record_ids_repeated]
    simp [List.length_range']
  · rw [record_ids_repeated]
    exact List.nodup_range' gen.nextId n 1 (by norm_num)
  · intro c' vI' vT' p'
    rw [record_ids_repeated, record_ids_repeated]

/-- Witness for C7 at three concrete identical calls. -/
theorem C7_fresh_identifiers_witness :
    1 ≤ 3 ∧
    (record_ids
      (repeated_upsert_requests ⟨0⟩ "c" [1] [2] [("k", "v")] 3)).length
      = 3 ∧
    (record_ids
      (repeated_upsert_requests ⟨0⟩ "c" [1] [2] [("k", "v")] 3)).Pairwise
      (· ≠ ·) := by
  have h := C7_fresh_distinct_identifiers ⟨0⟩ "c" [1] [2] [("k", "v")] 3
    (by norm_num)
  exact ⟨by norm_num, h.1, h.2.1⟩

/-- C6: `create_multivector_collection` declares exactly the two named
vector spaces `image` (dimension d1) and `text` (dimension d2), both with
cosine distance, in a single create request; under the spec-modelled engine
acceptance rule, a write into such a collection succeeds exactly when its
`image` vector has length d1 and its `text` vector has length d2, and a
write with a mismatched length is rejected with a schema-mismatch error. -/
theorem C6_schema_and_write_acceptance (c : String) (d1 d2 : Nat)
    (engine : Engine) (id : PointId) (vI vT : List Scalar) (p : Payload) :
    (create_multivector_collection_request c d1 d2).namedVectors =
      [("image", ⟨d1, .cosine⟩), ("text", ⟨d2, .cosine⟩)] ∧
    create_multivector_collection engine c d1 d2 =
      ofExcept (engine.createCollection
        (create_multivector_collection_request c d1 d2)) ∧
    (engine_write_result
        (create_multivector_collection_request c d1 d2).namedVectors
        ⟨id, .named [("image", vI), ("text", vT)], p⟩ = .ok ()
      ↔ vI.length = d1 ∧ vT.length = d2) ∧
    (¬ (vI.length = d1 ∧ vT.length = d2) →
      engine_write_result
        (create_multivector_collection_request c d1 d2).namedVectors
        ⟨id, .named [("image", vI), ("text", vT)], p⟩
        = .error .schemaMismatch) := by
  have hacc : engine_accepts_point
      (create_multivector_collection_request c d1 d2).namedVectors
      ⟨id, .named [("image", vI), ("text", vT)], p⟩
      = (vI.length == d1 && vT.length == d2) := by
    simp [engine_accepts_point, create_multivector_collection_request,
      VectorData.namedLookup, VectorData.names]
  refine ⟨rfl, rfl, ?_, ?_⟩
  · simp only [engine_write_result, hacc]
    by_cases h1 : vI.length = d1 <;> by_cases h2 : vT.length = d2 <;>
      simp [h1, h2]
  · intro hmis
    simp only [engine_write_result, hacc]
    by_cases h1 : vI.length = d1 <;> by_cases h2 : vT.length = d2 <;>
      simp [h1, h2] <;> exact absurd ⟨h1, h2⟩ hmis

/-- Witness for C6: a concrete mismatched write is rejected with the
schema-mismatch error. -/
theorem C6_schema_witness :
    ¬ (([1, 2] : List Scalar).length = 3 ∧ ([5] : List Scalar).length = 1) ∧
    engine_write_result
      (create_multivector_collection_request "c" 3 1).namedVectors
      ⟨0, .named [("image", [1, 2]), ("text", [5])], []⟩
      = .error .schemaMismatch := by
  have h := C6_schema_and_write_acceptance "c" 3 1 okEngine 0 [1, 2] [5] []
  exact ⟨by decide, h.2.2.2 (by decide)⟩

/-! ## Claims about the ingestion orchestrator -/

/-- `load_images` preserves the batch length. -/
theorem load_images_length (env : IngestEnv) :
    ∀ (paths imgs : List String),
      load_images env paths = .ok imgs → imgs.length = paths.length := by
  intro paths
  induction paths with
  | nil =>
    intro imgs h
    cases h
    rfl
  | cons p rest ih =>
    intro imgs h
    simp only [load_images] at h
    cases hb : env.loadImageAsBase64 p <;> rw [hb] at h
    · exact Except.noConfusion h
    · cases hr : load_images env rest <;> rw [hr] at h
      · exact Except.noConfusion h
      · cases h
        simp [ih _ hr]

/-- Each loaded image is the base64 output of the loader on the positional
path. -/
theorem load_images_getD (env : IngestEnv) :
    ∀ (paths imgs : List String), load_images env paths = .ok imgs →
      ∀ j, j < paths.length →
        env.loadImageAsBase64 (paths.getD j "") = .ok (imgs.getD j "") := by
  intro paths
  induction paths with
  | nil =>
    intro imgs h j hj
    simp at hj
  | cons p rest ih =>
    intro imgs h j hj
    simp only [load_images] at h
    cases hb : env.loadImageAsBase64 p <;> rw [hb] at h
    · exact Except.noConfusion h
    · cases hr : load_images env rest <;> rw [hr] at h
      · exact Except.noConfusion h
      · cases h
        cases j with
        | zero => simpa using hb
        | succ j =>
          simp only [List.getD_cons_succ]
          exact ih _ hr j (by simpa using hj)

/-- The planned request list has one request per pair. -/
theorem ingest_requests_length (env : IngestEnv) (c : String)
    (imgEmb txtEmb : List (List Scalar)) :
    ∀ (pairs : List (String × String)) (idx : Nat) (gen : IdGen),
      (ingest_requests env gen c imgEmb txtEmb pairs idx).length =
        pairs.length := by
  intro pairs
  induction pairs with
  | nil => intro idx gen; rfl
  | cons pr rest ih =>
    intro idx gen
    obtain ⟨a, b⟩ := pr
    simp [ingest_requests, ih]

/-- Positional pairing: the j-th planned request binds the embeddings of
index `idx + j`, the j-th (image, text) pair's payload, and the fresh
identifier drawn at step j. -/
theorem ingest_requests_getD (env : IngestEnv) (c : String)
    (imgEmb txtEmb : List (List Scalar)) :
    ∀ (pairs : List (String × String)) (idx : Nat) (gen : IdGen) (j : Nat),
      j < pairs.length →
      (ingest_requests env gen c imgEmb txtEmb pairs idx).getD j defaultReq =
        upsert_points_multivector_request (gen.nextId + j) c
          (imgEmb.getD (idx + j) []) (txtEmb.getD (idx + j) [])
          (ingest_payload (pairs.getD j ("", "")).1
            (pairs.getD j ("", "")).2 (env.now (idx + j))) := by
  intro pairs
  induction pairs with
  | nil =>
    intro idx gen j hj
    simp at hj
  | cons pr rest ih =>
    intro idx gen j hj
    obtain ⟨a, b⟩ := pr
    cases j with
    | zero => simp [ingest_requests]
    | succ j =>
      simp only [ingest_requests, List.getD_cons_succ]
      rw [ih (idx + 1) ⟨gen.nextId + 1⟩ j (by simpa using hj)]
      have h1 : gen.nextId + 1 + j = gen.nextId + (j + 1) := by omega
      have h2 : idx + 1 + j = idx + (j + 1) := by omega
      rw [h1, h2]

/-- The trace of requests the pairing loop issues is always a positional
prefix of the planned request list. -/
theorem ingest_loop_trace_take (engine : Engine) (env : IngestEnv)
    (c : String) (imgEmb txtEmb : List (List Scalar)) :
    ∀ (pairs : List (String × String)) (idx : Nat) (gen : IdGen),
      ∃ k, k ≤ pairs.length ∧
        (ingest_loop engine env gen c imgEmb txtEmb pairs idx).1 =
          (ingest_requests env gen c imgEmb txtEmb pairs idx).take k := by
  intro pairs
  induction pairs with
  | nil => intro idx gen; exact ⟨0, Nat.le_refl 0, rfl⟩
  | cons pr rest ih =>
    intro idx gen
    obtain ⟨a, b⟩ := pr
    cases h1 : imgEmb[idx]? with
    | none =>
      refine ⟨0, by simp, ?_⟩
      simp [ingest_loop, h1]
    | some vI =>
      cases h2 : txtEmb[idx]? with
      | none =>
        refine ⟨0, by simp, ?_⟩
        simp [ingest_loop, h1, h2]
      | some vT =>
        have hI : imgEmb.getD idx [] = vI := by simp [List.getD, h1]
        have hT : txtEmb.getD idx [] = vT := by simp [List.getD, h2]
        cases hup : engine.upsert (upsert_points_multivector_request
            gen.nextId c vI vT (ingest_payload a b (env.now idx))) with
        | error e =>
          refine ⟨1, by simp, ?_⟩
          simp [ingest_loop, ingest_requests, IdGen.fresh, h1, h2, hup, hI,
            hT]
        | ok resp =>
          obtain ⟨k, hk, htr⟩ := ih (idx + 1) ⟨gen.nextId + 1⟩
          refine ⟨k + 1, by simpa using hk, ?_⟩
          simp [ingest_loop, ingest_requests, IdGen.fresh, h1, h2, hup, hI,
            hT, List.take_succ_cons, htr]

/-- Fail-fast characterization of the pairing loop: when every planned
write succeeds, the loop issues exactly the planned requests in order and
returns success; when the k-th planned write is the first to fail, the loop
issues exactly the first k+1 planned requests (the failing one last),
returns that error, and attempts nothing further. -/
theorem ingest_loop_run (engine : Engine) (env : IngestEnv) (c : String)
    (imgEmb txtEmb : List (List Scalar)) :
    ∀ (pairs : List (String × String)) (idx : Nat) (gen : IdGen),
      idx + pairs.length ≤ imgEmb.length →
      idx + pairs.length ≤ txtEmb.length →
      ((∀ r ∈ ingest_requests env gen c imgEmb txtEmb pairs idx,
          ∃ resp, engine.upsert r = .ok resp) →
        ingest_loop engine env gen c imgEmb txtEmb pairs idx =
          (ingest_requests env gen c imgEmb txtEmb pairs idx, .ok (),
            ⟨gen.nextId + pairs.length⟩)) ∧
      (∀ k e, k < pairs.length →
        (∀ j, j < k →
          ∃ resp, engine.upsert
            ((ingest_requests env gen c imgEmb txtEmb pairs idx).getD j
              defaultReq) = .ok resp) →
        engine.upsert
          ((ingest_requests env gen c imgEmb txtEmb pairs idx).getD k
            defaultReq) = .error e →
        (ingest_loop engine env gen c imgEmb txtEmb pairs idx).1 =
          (ingest_requests env gen c imgEmb txtEmb pairs idx).take (k + 1) ∧
        (ingest_loop engine env gen c imgEmb txtEmb pairs idx).2.1 =
          .err (.qdrant e)) := by
  intro pairs
  induction pairs with
  | nil =>
    intro idx gen hb1 hb2
    refine ⟨fun _ => rfl, fun k e hk => ?_⟩
    simp at hk
  | cons pr rest ih =>
    intro idx gen hb1 hb2
    obtain ⟨a, b⟩ := pr
    simp only [List.length_cons] at hb1 hb2
    have hlt1 : idx < imgEmb.length := by omega
    have hlt2 : idx < txtEmb.length := by omega
    obtain ⟨vI, h1⟩ : ∃ v, imgEmb[idx]? = some v :=
      ⟨_, List.getElem?_eq_getElem hlt1⟩
    obtain ⟨vT, h2⟩ : ∃ v, txtEmb[idx]? = some v :=
      ⟨_, List.getElem?_eq_getElem hlt2⟩
    have hI : imgEmb.getD idx [] = vI := by simp [List.getD, h1]
    have hT : txtEmb.getD idx [] = vT := by simp [List.getD, h2]
    have hplanned : ingest_requests env gen c imgEmb txtEmb
        ((a, b) :: rest) idx =
        upsert_points_multivector_request gen.nextId c vI vT
          (ingest_payload a b (env.now idx))
        :: ingest_requests env ⟨gen.nextId + 1⟩ c imgEmb txtEmb rest
             (idx + 1) := by
      simp only [ingest_requests, hI, hT]
    have hbr1 : idx + 1 + rest.length ≤ imgEmb.length := by omega
    have hbr2 : idx + 1 + rest.length ≤ txtEmb.length := by omega
    have ihr := ih (idx + 1) ⟨gen.nextId + 1⟩ hbr1 hbr2
    constructor
    · intro hall
      rw [hplanned] at hall
      obtain ⟨resp, hup⟩ := hall _ (List.mem_cons_self _ _)
      have hrest := ihr.1 (fun r hr => hall r (List.mem_cons_of_mem _ hr))
      have hloop : ingest_loop engine env gen c imgEmb txtEmb
          ((a, b) :: rest) idx =
          (upsert_points_multivector_request gen.nextId c vI vT
             (ingest_payload a b (env.now idx))
           :: ingest_requests env ⟨gen.nextId + 1⟩ c imgEmb txtEmb rest
                (idx + 1),
           .ok (), ⟨gen.nextId + 1 + rest.length⟩) := by
        simp only [ingest_loop, h1, h2, IdGen.fresh, hup, hrest]
      rw [hplanned, hloop]
      have harith : gen.nextId + 1 + rest.length =
          gen.nextId + ((a, b) :: rest).length := by
        simp only [List.length_cons]
        omega
      rw [harith]
    · intro k e hk hok hfail
      cases k with
      | zero =>
        rw [hplanned] at hfail
        simp only [List.getD_cons_zero] at hfail
        have hloop : ingest_loop engine env gen c imgEmb txtEmb
            ((a, b) :: rest) idx =
            ([upsert_points_multivector_request gen.nextId c vI vT
               (ingest_payload a b (env.now idx))],
             .err (.qdrant e), ⟨gen.nextId + 1⟩) := by
          simp only [ingest_loop, h1, h2, IdGen.fresh, hfail]
        refine ⟨?_, ?_⟩
        · rw [hloop, hplanned]
          rfl
        · rw [hloop]
      | succ k =>
        have hhead : ∃ resp, engine.upsert
            (upsert_points_multivector_request gen.nextId c vI vT
              (ingest_payload a b (env.now idx))) = .ok resp := by
          have h0 := hok 0 (Nat.succ_pos k)
          rw [hplanned] at h0
          simpa only [List.getD_cons_zero] using h0
        obtain ⟨resp, hup⟩ := hhead
        have hok2 : ∀ j, j < k →
            ∃ resp, engine.upsert
              ((ingest_requests env ⟨gen.nextId + 1⟩ c imgEmb txtEmb rest
                (idx + 1)).getD j defaultReq) = .ok resp := by
          intro j hj
          have hj1 := hok (j + 1) (by omega)
          rw [hplanned] at hj1
          simpa only [List.getD_cons_succ] using hj1
        have hfail2 : engine.upsert
            ((ingest_requests env ⟨gen.nextId + 1⟩ c imgEmb txtEmb rest
              (idx + 1)).getD k defaultReq) = .error e := by
          rw [hplanned] at hfail
          simpa only [List.getD_cons_succ] using hfail
        have hrec := ihr.2 k e (by simpa using hk) hok2 hfail2
        have hloop : ingest_loop engine env gen c imgEmb txtEmb
            ((a, b) :: rest) idx =
            (upsert_points_multivector_request gen.nextId c vI vT
               (ingest_payload a b (env.now idx))
             :: (ingest_loop engine env ⟨gen.nextId + 1⟩ c imgEmb txtEmb
                  rest (idx + 1)).1,
             (ingest_loop engine env ⟨gen.nextId + 1⟩ c imgEmb txtEmb rest
               (idx + 1)).2.1,
             (ingest_loop engine env ⟨gen.nextId + 1⟩ c imgEmb txtEmb rest
               (idx + 1)).2.2) := by
          simp only [ingest_loop, h1, h2, IdGen.fresh, hup]
        refine ⟨?_, ?_⟩
        · rw [hloop, hplanned, List.take_succ_cons]
          simp only [hrec.1]
        · rw [hloop]
          exact hrec.2

/-- `getD` of a zip of string lists is the pair of positional elements. -/
theorem zip_getD_eq (images texts : List String) (j : Nat)
    (hj : j < (images.zip texts).length) :
    (images.zip texts).getD j ("", "") =
      (images.getD j "", texts.getD j "") := by
  have hj1 : j < images.length := by
    simp [List.length_zip] at hj
    omega
  have hj2 : j < texts.length := by
    simp [List.length_zip] at hj
    omega
  rw [List.getD_eq_getElem _ _ hj, List.getD_eq_getElem _ _ hj1,
    List.getD_eq_getElem _ _ hj2, List.getElem_zip]

/-- C9: `ingest_multivector` pairs the i-th image with the i-th text,
issuing one payload and one write call per pair in positional order
(part i); when every write succeeds it issues exactly the planned requests
in order (part ii); and the batch is fail-fast (part iii): when the k-th
write (0-indexed) is the first to fail, the call returns that error
immediately, exactly the k+1 first planned requests were issued — the k
earlier ones acknowledged and left in place, the loop issuing no other
engine operation, so nothing is rolled back — and no write after the
failing one is attempted. -/
theorem C9_positional_fail_fast (engine : Engine) (env : IngestEnv)
    (gen : IdGen) (c : String) (image_paths texts : List String)
    (txtEmb imgEmb : List (List Scalar)) (images : List String)
    (htE : env.textEmbed texts = .ok txtEmb)
    (hload : load_images env image_paths = .ok images)
    (hiE : env.imageEmbed images = .ok imgEmb)
    (hiLen : imgEmb.length = images.length)
    (htLen : txtEmb.length = texts.length)
    (hlen : images.length = texts.length) :
    (∀ j, j < (images.zip texts).length →
      (ingest_requests env gen c imgEmb txtEmb (images.zip texts) 0).getD j
          defaultReq =
        upsert_points_multivector_request (gen.nextId + j) c
          (imgEmb.getD j []) (txtEmb.getD j [])
          (ingest_payload (images.getD j "") (texts.getD j "")
            (env.now j))) ∧
    ((∀ r ∈ ingest_requests env gen c imgEmb txtEmb (images.zip texts) 0,
        ∃ resp, engine.upsert r = .ok resp) →
      (ingest_multivector engine env gen c image_paths texts).1 =
        ingest_requests env gen c imgEmb txtEmb (images.zip texts) 0 ∧
      (ingest_multivector engine env gen c image_paths texts).2.1 =
        .ok ()) ∧
    (∀ k e, k < (images.zip texts).length →
      (∀ j, j < k →
        ∃ resp, engine.upsert
          ((ingest_requests env gen c imgEmb txtEmb (images.zip texts)
            0).getD j defaultReq) = .ok resp) →
      engine.upsert
        ((ingest_requests env gen c imgEmb txtEmb (images.zip texts)
          0).getD k defaultReq) = .error e →
      (ingest_multivector engine env gen c image_paths texts).1 =
        (ingest_requests env gen c imgEmb txtEmb (images.zip texts)
          0).take (k + 1) ∧
      (ingest_multivector engine env gen c image_paths texts).2.1 =
        .err (.qdrant e)) := by
  have hred : ingest_multivector engine env gen c image_paths texts =
      ingest_loop engine env gen c imgEmb txtEmb (images.zip texts) 0 := by
    simp only [ingest_multivector, htE, hload, hiE]
  have hzlen : (images.zip texts).length = images.length := by
    simp [List.length_zip, hlen]
  have hb1 : 0 + (images.zip texts).length ≤ imgEmb.length := by
    rw [hzlen]
    omega
  have hb2 : 0 + (images.zip texts).length ≤ txtEmb.length := by
    rw [hzlen]
    omega
  have hrun := ingest_loop_run engine env c imgEmb txtEmb
    (images.zip texts) 0 gen hb1 hb2
  refine ⟨?_, ?_, ?_⟩
  · intro j hj
    rw [ingest_requests_getD env c imgEmb txtEmb (images.zip texts) 0 gen j
      hj, zip_getD_eq images texts j hj]
    simp only [Nat.zero_add]
  · intro hall
    have h1 := hrun.1 hall
    constructor
    · rw [hred, h1]
    · rw [hred, h1]
  · intro k e hk hok hfail
    have h2 := hrun.2 k e hk hok hfail
    constructor
    · rw [hred]
      exact h2.1
    · rw [hred]
      exact h2.2

/-- Witness for C9 at a concrete three-pair batch whose second write
fails. -/
theorem C9_fail_fast_witness :
    (ingest_multivector secondWriteFailEngine sampleEnv ⟨0⟩ "c"
        ["p1", "p2", "p3"] ["t1", "t2", "t3"]).1 =
      (ingest_requests sampleEnv ⟨0⟩ "c" [[3, 4], [3, 4], [3, 4]]
        [[1, 2], [1, 2], [1, 2]]
        (["b64:p1", "b64:p2", "b64:p3"].zip ["t1", "t2", "t3"]) 0).take 2 ∧
    (ingest_multivector secondWriteFailEngine sampleEnv ⟨0⟩ "c"
        ["p1", "p2", "p3"] ["t1", "t2", "t3"]).2.1 =
      .err (.qdrant .connectionError) := by
  have h := C9_positional_fail_fast secondWriteFailEngine sampleEnv ⟨0⟩ "c"
    ["p1", "p2", "p3"] ["t1", "t2", "t3"] [[1, 2], [1, 2], [1, 2]]
    [[3, 4], [3, 4], [3, 4]] ["b64:p1", "b64:p2", "b64:p3"]
    rfl rfl rfl rfl rfl rfl
  have h3 := h.2.2 1 .connectionError (by decide)
    (by
      intro j hj
      have hj0 : j = 0 := by omega
      subst hj0
      exact ⟨⟨0⟩, rfl⟩)
    rfl
  exact h3

/-- C5: every record written by `ingest_multivector` stores, under the
`image_path` payload key, the base64-encoded image — the output of
`load_image_as_base64` on the positional path — rather than the file path
itself, because the pairing loop iterates over the vector of base64
strings. -/
theorem C5_payload_stores_base64 (engine : Engine) (env : IngestEnv)
    (gen : IdGen) (c : String) (image_paths texts : List String)
    (txtEmb imgEmb : List (List Scalar)) (images : List String)
    (htE : env.textEmbed texts = .ok txtEmb)
    (hload : load_images env image_paths = .ok images)
    (hiE : env.imageEmbed images = .ok imgEmb)
    (hiLen : imgEmb.length = images.length)
    (htLen : txtEmb.length = texts.length)
    (hlen : images.length = texts.length) :
    ∀ j, j < ((ingest_multivector engine env gen c image_paths
        texts).1).length →
      payloadLookup
        (((ingest_multivector engine env gen c image_paths texts).1.getD j
            defaultReq).points.getD 0 defaultPoint).payload "image_path"
        = some (images.getD j "") ∧
      env.loadImageAsBase64 (image_paths.getD j "") =
        .ok (images.getD j "") := by
  have hred : ingest_multivector engine env gen c image_paths texts =
      ingest_loop engine env gen c imgEmb txtEmb (images.zip texts) 0 := by
    simp only [ingest_multivector, htE, hload, hiE]
  have hzlen : (images.zip texts).length = images.length := by
    simp [List.length_zip, hlen]
  obtain ⟨k, hk, htr⟩ := ingest_loop_trace_take engine env c imgEmb txtEmb
    (images.zip texts) 0 gen
  intro j hj
  rw [hred, htr] at hj
  have hjk : j < k := by
    simp [List.length_take] at hj
    exact hj.1
  have hjp : j < (ingest_requests env gen c imgEmb txtEmb
      (images.zip texts) 0).length := by
    simp [List.length_take] at hj
    exact hj.2
  have hjz : j < (images.zip texts).length := by
    rw [ingest_requests_length env c imgEmb txtEmb (images.zip texts) 0
      gen] at hjp
    exact hjp
  have hgd : ((ingest_requests env gen c imgEmb txtEmb (images.zip texts)
      0).take k).getD j defaultReq =
      (ingest_requests env gen c imgEmb txtEmb (images.zip texts) 0).getD j
        defaultReq := by
    simp [List.getD, List.getElem?_take, hjk]
  rw [hred, htr, hgd, ingest_requests_getD env c imgEmb txtEmb
    (images.zip texts) 0 gen j hjz, zip_getD_eq images texts j hjz]
  constructor
  · simp [upsert_points_multivector_request, ingest_payload, payloadLookup]
  · have hjimg : j < images.length := by
      rw [hzlen] at hjz
      exact hjz
    have hjpaths : j < image_paths.length := by
      rw [← load_images_length env image_paths images hload]
      exact hjimg
    exact load_images_getD env image_paths images hload j hjpaths

/-- Witness for C5 at a concrete two-pair batch. -/
theorem C5_payload_witness :
    payloadLookup
      (((ingest_multivector okEngine sampleEnv ⟨0⟩ "c" ["p1", "p2"]
          ["t1", "t2"]).1.getD 0 defaultReq).points.getD 0
        defaultPoint).payload "image_path" = some "b64:p1" ∧
    sampleEnv.loadImageAsBase64 "p1" = .ok "b64:p1" := by
  have h := C5_payload_stores_base64 okEngine sampleEnv ⟨0⟩ "c"
    ["p1", "p2"] ["t1", "t2"] [[1, 2], [1, 2]] [[3, 4], [3, 4]]
    ["b64:p1", "b64:p2"] rfl rfl rfl rfl rfl rfl 0 (by decide)
  exact h

/-! ## The concurrency claim -/

/-- Invariant of the coordinator's interleaving semantics: a task that has
sent carries exactly its query's successful result, a panicked task had a
failing query, an `awaitingTxt` coordinator holds the image task's sent
result, and a returned coordinator holds both sent results. -/
def CoordInv (cfg : CoordCfg) (s : CState) : Prop :=
  (s.img = .pending ∨ (∃ r, s.img = .sent r ∧ cfg.imgResult = .ok r) ∨
    (s.img = .panicked ∧ ∃ e, cfg.imgResult = .error e)) ∧
  (s.txt = .pending ∨ (∃ r, s.txt = .sent r ∧ cfg.txtResult = .ok r) ∨
    (s.txt = .panicked ∧ ∃ e, cfg.txtResult = .error e)) ∧
  (∀ ri, s.phase = .awaitingTxt ri → s.img = .sent ri) ∧
  (∀ p, s.phase = .returned p → s.img = .sent p.1 ∧ s.txt = .sent p.2)

/-- The invariant holds initially. -/
theorem coordInv_init (cfg : CoordCfg) : CoordInv cfg initState := by
  refine ⟨.inl rfl, .inl rfl, ?_, ?_⟩ <;> intro x hx <;>
    simp [initState] at hx

/-- The invariant is preserved by every step. -/
theorem coordInv_step (cfg : CoordCfg) (s s' : CState)
    (hstep : CoordStep cfg s s') (hinv : CoordInv cfg s) :
    CoordInv cfg s' := by
  obtain ⟨hi, ht, hph1, hph2⟩ := hinv
  cases hstep with
  | imgOk t ph r hr =>
    refine ⟨.inr (.inl ⟨r, rfl, hr⟩), ht, ?_, ?_⟩
    · intro ri hph
      exact absurd (hph1 ri hph) (by simp)
    · intro p hph
      exact absurd (hph2 p hph).1 (by simp)
  | imgFail t ph e hr =>
    refine ⟨.inr (.inr ⟨rfl, e, hr⟩), ht, ?_, ?_⟩
    · intro ri hph
      exact absurd (hph1 ri hph) (by simp)
    · intro p hph
      exact absurd (hph2 p hph).1 (by simp)
  | txtOk st ph r hr =>
    refine ⟨hi, .inr (.inl ⟨r, rfl, hr⟩), fun ri hph => hph1 ri hph, ?_⟩
    intro p hph
    exact absurd (hph2 p hph).2 (by simp)
  | txtFail st ph e hr =>
    refine ⟨hi, .inr (.inr ⟨rfl, e, hr⟩), fun ri hph => hph1 ri hph, ?_⟩
    intro p hph
    exact absurd (hph2 p hph).2 (by simp)
  | recvImg t r =>
    refine ⟨hi, ht, ?_, ?_⟩
    · intro ri hph
      cases hph
      rfl
    · intro p hph
      simp at hph
  | recvImgDropped t =>
    refine ⟨hi, ht, ?_, ?_⟩ <;> intro x hx <;> simp at hx
  | recvTxt st ri rt =>
    refine ⟨hi, ht, ?_, ?_⟩
    · intro ri2 hph
      simp at hph
    · intro p hph
      cases hph
      exact ⟨hph1 ri rfl, rfl⟩
  | recvTxtDropped st ri =>
    refine ⟨hi, ht, ?_, ?_⟩ <;> intro x hx <;> simp at hx

/-- Every reachable state satisfies the invariant. -/
theorem coordReach_inv (cfg : CoordCfg) (s : CState)
    (h : CoordReach cfg initState s) : CoordInv cfg s := by
  induction h with
  | refl => exact coordInv_init cfg
  | tail hsteps hstep ih => exact coordInv_step cfg _ _ hstep ih

/-- Consumption counts never exceed the two oneshot channels. -/
theorem consumedCount_le_two (ph : CoordPhase) : ph.consumedCount ≤ 2 := by
  cases ph <;> simp [CoordPhase.consumedCount]

/-- C10: in the interleaving model of the coordinator's fan-out/fan-in, the
two sub-queries run as independently spawned tasks over two distinct client
instances; each task can take its step whatever the sibling task or the
coordinator is doing (neither blocks or delays the other); oneshot
consumption only grows and is capped at two, so each channel is consumed at
most once, and a returned coordinator has consumed both exactly once; the
coordinator reaches `returned` only when both tasks are terminal, the pair
holding the image result first and the text result second, in agreement
with the functional `query_points_multivector`; and the paired final state
is reachable both through image-completes-first and text-completes-first
interleavings, so no ordering holds between the sub-queries. -/
theorem C10_concurrent_fanout (engine : Engine) (c : String)
    (iv tv : List Scalar) (l : Nat) (a b : QueryResponse)
    (himg : (mkCoordCfg engine c iv tv l).imgResult = .ok a)
    (htxt : (mkCoordCfg engine c iv tv l).txtResult = .ok b) :
    (mkCoordCfg engine c iv tv l).clientImg ≠
      (mkCoordCfg engine c iv tv l).clientTxt ∧
    (∀ s : CState,
      (s.img = .pending →
        ∃ s', CoordStep (mkCoordCfg engine c iv tv l) s s' ∧
          s'.txt = s.txt ∧ s'.phase = s.phase ∧ s'.img ≠ .pending) ∧
      (s.txt = .pending →
        ∃ s', CoordStep (mkCoordCfg engine c iv tv l) s s' ∧
          s'.img = s.img ∧ s'.phase = s.phase ∧ s'.txt ≠ .pending)) ∧
    (∀ s s', CoordStep (mkCoordCfg engine c iv tv l) s s' →
      s.phase.consumedCount ≤ s'.phase.consumedCount ∧
      s'.phase.consumedCount ≤ 2) ∧
    (∀ s, CoordReach (mkCoordCfg engine c iv tv l) initState s →
      ∀ p, s.phase = .returned p →
        s.img.isTerminal = true ∧ s.txt.isTerminal = true ∧
        s.img = .sent p.1 ∧ s.txt = .sent p.2 ∧
        s.phase.consumedCount = 2 ∧
        query_points_multivector engine c iv tv l = .ok p) ∧
    (CoordReach (mkCoordCfg engine c iv tv l) initState
        ⟨.sent a, .pending, .awaitingImg⟩ ∧
      CoordReach (mkCoordCfg engine c iv tv l)
        ⟨.sent a, .pending, .awaitingImg⟩
        ⟨.sent a, .sent b, .returned (a, b)⟩) ∧
    (CoordReach (mkCoordCfg engine c iv tv l) initState
        ⟨.pending, .sent b, .awaitingImg⟩ ∧
      CoordReach (mkCoordCfg engine c iv tv l)
        ⟨.pending, .sent b, .awaitingImg⟩
        ⟨.sent a, .sent b, .returned (a, b)⟩) := by
  refine ⟨by simp [mkCoordCfg], ?_, ?_, ?_, ?_, ?_⟩
  · intro s
    obtain ⟨i, t, ph⟩ := s
    constructor
    · intro hi
      simp only at hi
      subst hi
      cases hr : (mkCoordCfg engine c iv tv l).imgResult with
      | ok r =>
        exact ⟨⟨.sent r, t, ph⟩, .imgOk t ph r hr, rfl, rfl, by simp⟩
      | error e =>
        exact ⟨⟨.panicked, t, ph⟩, .imgFail t ph e hr, rfl, rfl, by simp⟩
    · intro ht
      simp only at ht
      subst ht
      cases hr : (mkCoordCfg engine c iv tv l).txtResult with
      | ok r =>
        exact ⟨⟨i, .sent r, ph⟩, .txtOk i ph r hr, rfl, rfl, by simp⟩
      | error e =>
        exact ⟨⟨i, .panicked, ph⟩, .txtFail i ph e hr, rfl, rfl, by simp⟩
  · intro s s' hstep
    refine ⟨?_, consumedCount_le_two _⟩
    cases hstep <;> simp [CoordPhase.consumedCount]
  · intro s hreach p hph
    obtain ⟨hi, ht, hph1, hph2⟩ := coordReach_inv _ s hreach
    obtain ⟨himgSent, htxtSent⟩ := hph2 p hph
    have himgRes : (mkCoordCfg engine c iv tv l).imgResult = .ok p.1 := by
      rcases hi with h | ⟨r, hr, hres⟩ | ⟨hr, _⟩
      · rw [himgSent] at h
        exact absurd h (by simp)
      · rw [himgSent] at hr
        cases hr
        exact hres
      · rw [himgSent] at hr
        exact absurd hr (by simp)
    have htxtRes : (mkCoordCfg engine c iv tv l).txtResult = .ok p.2 := by
      rcases ht with h | ⟨r, hr, hres⟩ | ⟨hr, _⟩
      · rw [htxtSent] at h
        exact absurd h (by simp)
      · rw [htxtSent] at hr
        cases hr
        exact hres
      · rw [htxtSent] at hr
        exact absurd hr (by simp)
    have hq1 : engine.query (image_subquery c iv l) = .ok p.1 := himgRes
    have hq2 : engine.query (text_subquery c tv l) = .ok p.2 := htxtRes
    refine ⟨by rw [himgSent]; rfl, by rw [htxtSent]; rfl, himgSent,
      htxtSent, by rw [hph]; rfl, ?_⟩
    unfold query_points_multivector
    rw [hq1, hq2]
  · exact ⟨Relation.ReflTransGen.single (.imgOk _ _ a himg),
      Relation.ReflTransGen.head (.txtOk _ _ b htxt)
        (Relation.ReflTransGen.head (.recvImg _ a)
          (Relation.ReflTransGen.single (.recvTxt _ a b)))⟩
  · exact ⟨Relation.ReflTransGen.single (.txtOk _ _ b htxt),
      Relation.ReflTransGen.head (.imgOk _ _ a himg)
        (Relation.ReflTransGen.head (.recvImg _ a)
          (Relation.ReflTransGen.single (.recvTxt _ a b)))⟩

/-- Witness for C10 at a concrete succeeding engine. -/
theorem C10_concurrency_witness :
    (mkCoordCfg okEngine "c" [1] [2] 5).imgResult = .ok sampleImgResponse ∧
    (mkCoordCfg okEngine "c" [1] [2] 5).txtResult = .ok sampleTxtResponse ∧
    CoordReach (mkCoordCfg okEngine "c" [1] [2] 5) initState
      ⟨.sent sampleImgResponse, .pending, .awaitingImg⟩ := by
  have h := C10_concurrent_fanout okEngine "c" [1] [2] 5
    sampleImgResponse sampleTxtResponse rfl rfl
  exact ⟨rfl, rfl, h.2.2.2.2.1.1⟩

end LiquidMemory
